import Mathlib

/-!
Verification of the GotMail webmail backend
(`src/backend/GotMail/gotmail_service/views.py`) against its
natural-language specification.

The Django views are shallowly embedded as pure Lean functions.  The
relational store is an explicit record of lists of rows; each view is a
function from the request data and the current store to the (possibly
updated) store plus an HTTP status code.  Timestamps are naturals
(seconds).  `User.objects.get(...)` is modelled by `objectsGet`, which
distinguishes the zero-match (`DoesNotExist`), one-match, and
multi-match (`MultipleObjectsReturned`) outcomes exactly as Django does.
Python truthiness on strings (absent header vs. empty string) is
modelled explicitly wherever the source tests a raw string.
-/

/-- A row of the `User` table, restricted to the fields the views under
verification read or write: primary key, phone number, and the session
token/expiry pair used by the session authenticator. -/
structure User where
  id : Nat
  phone_number : String
  session_token : Option String
  session_expiry : Option Nat
  deriving Repr, DecidableEq

/-- `session_expiry__gt=timezone.now()`: a nullable expiry is live when it
is present and strictly after the current time (SQL `NULL > now` is not
satisfied). -/
def expiryLive (now : Nat) : Option Nat → Bool
  | some e => decide (now < e)
  | none => false

/-- The lookup predicate of
`User.objects.get(session_token=tok, session_expiry__gt=timezone.now())`
where `tok` may itself be null. -/
def matchesTokenQ (now : Nat) (tok : Option String) (u : User) : Bool :=
  decide (u.session_token = tok) && expiryLive now u.session_expiry

/-- The same lookup predicate for a definite token string. -/
def matchesToken (now : Nat) (t : String) (u : User) : Bool :=
  matchesTokenQ now (some t) u

/-- Outcome of a Django `Model.objects.get(...)` call. -/
inductive GetOutcome (α : Type) where
  | ok (a : α)
  | doesNotExist
  | multipleObjectsReturned
  deriving Repr, DecidableEq

/-- `User.objects.get(p)`: exactly one matching row yields it; zero rows
raise `DoesNotExist`; several raise `MultipleObjectsReturned`. -/
def objectsGet (p : User → Bool) (users : List User) : GetOutcome User :=
  match users.filter p with
  | [] => .doesNotExist
  | [u] => .ok u
  | _ :: _ :: _ => .multipleObjectsReturned

/-- Result of `SessionTokenAuthentication.authenticate`. -/
inductive AuthResult where
  | anonymous
  | authenticated (u : User)
  | authenticationFailed
  | serverError
  deriving Repr, DecidableEq

/-- `SessionTokenAuthentication.authenticate`: read the raw
`Authorization` header; a falsy header (absent or empty) yields `None`
(anonymous); otherwise look up the unique user holding the token with a
live expiry, translating `User.DoesNotExist` into `AuthenticationFailed`.
The source performs no writes, so the embedding returns no updated
store. -/
def authenticate (now : Nat) (header : Option String) (users : List User) : AuthResult :=
  match header with
  | none => .anonymous
  | some tok =>
    if tok = "" then .anonymous
    else
      match objectsGet (matchesToken now tok) users with
      | .ok u => .authenticated u
      | .doesNotExist => .authenticationFailed
      | .multipleObjectsReturned => .serverError

/-- Clearing a user's session on logout
(`user.session_token = None; user.session_expiry = None`). -/
def clearSession (u : User) : User :=
  { u with session_token := none, session_expiry := none }

/-- Python `a or b` over two optional strings: the first operand wins
when it is truthy (present and non-empty). -/
def firstTruthy (a b : Option String) : Option String :=
  match a with
  | some s => if s = "" then b else some s
  | none => b

/-- `LogoutView.post`: take the body token `or` the `Authorization`
header; when truthy, look the user up and clear their session, passing
on `DoesNotExist`; always answer 200 unless an unexpected exception
(only `MultipleObjectsReturned` is possible here) escapes the inner
handler and is converted to 400 by the outer one. -/
def logout (now : Nat) (body header : Option String) (users : List User) :
    List User × Nat :=
  match firstTruthy body header with
  | none => (users, 200)
  | some t =>
    match objectsGet (matchesToken now t) users with
    | .ok u => ((users.map fun v => if v.id = u.id then clearSession v else v), 200)
    | .doesNotExist => (users, 200)
    | .multipleObjectsReturned => (users, 400)

/-- `ValidateTokenView.post`: pure read; 200 when the (possibly null)
body token resolves to a unique live session, 401 on `DoesNotExist`,
500 when the uncaught `MultipleObjectsReturned` escapes. -/
def validate_token (now : Nat) (tok : Option String) (users : List User) : Nat :=
  match objectsGet (matchesTokenQ now tok) users with
  | .ok _ => 200
  | .doesNotExist => 401
  | .multipleObjectsReturned => 500

/-- The non-null session tokens currently stored, in row order. -/
def sessionTokens (users : List User) : List String :=
  users.filterMap (fun u => u.session_token)

/-- Store invariant: no two rows hold the same non-null session token.
Tokens are minted per login as fresh UUID4 values, so the store never
holds duplicates. -/
def uniqueTokens (users : List User) : Prop :=
  (sessionTokens users).Nodup

/-- Under `uniqueTokens`, at most one row can match a given token. -/
theorem filter_matchesToken_length_le_one (now : Nat) (t : String) :
    ∀ l : List User, uniqueTokens l → (l.filter (matchesToken now t)).length ≤ 1 := by
  intro l
  induction l with
  | nil => intro _; simp
  | cons x xs ih =>
    intro hnd
    by_cases hm : matchesToken now t x
    · have hx : x.session_token = some t := by
        have hm' := hm
        simp only [matchesToken, matchesTokenQ, Bool.and_eq_true, decide_eq_true_eq] at hm'
        exact hm'.1
      have hcons : sessionTokens (x :: xs) = t :: sessionTokens xs := by
        simp [sessionTokens, hx]
      have hnotin : t ∉ sessionTokens xs := by
        have hnd' := hnd
        unfold uniqueTokens at hnd'
        rw [hcons] at hnd'
        exact (List.nodup_cons.mp hnd').1
      have hnil : xs.filter (matchesToken now t) = [] := by
        rw [List.filter_eq_nil_iff]
        intro v hv hpv
        have hvtok : v.session_token = some t := by
          simp only [matchesToken, matchesTokenQ, Bool.and_eq_true, decide_eq_true_eq] at hpv
          exact hpv.1
        exact hnotin (List.mem_filterMap.mpr ⟨v, hv, hvtok⟩)
      simp [List.filter_cons, hm, hnil]
    · have hnd' : uniqueTokens xs := by
        unfold uniqueTokens at hnd ⊢
        cases hx : x.session_token with
        | none =>
          have : sessionTokens (x :: xs) = sessionTokens xs := by
            simp [sessionTokens, hx]
          rwa [this] at hnd
        | some s =>
          have : sessionTokens (x :: xs) = s :: sessionTokens xs := by
            simp [sessionTokens, hx]
          rw [this] at hnd
          exact (List.nodup_cons.mp hnd).2
      simpa [List.filter_cons, hm] using ih hnd'

/-- C1: the session authenticator yields anonymous on an absent header,
returns the unique user whose stored token equals the header with a
strictly future expiry, and raises `AuthenticationFailed` when a token
is present but no live matching user exists.  `authenticate` takes the
store and returns only a result, so no state is mutated in any case. -/
theorem session_token_authentication_contract (now : Nat) (users : List User) :
    authenticate now none users = .anonymous
    ∧ (∀ tok u, tok ≠ "" → users.filter (matchesToken now tok) = [u] →
        authenticate now (some tok) users = .authenticated u)
    ∧ (∀ tok, tok ≠ "" → users.filter (matchesToken now tok) = [] →
        authenticate now (some tok) users = .authenticationFailed) := by
  refine ⟨rfl, ?_, ?_⟩
  · intro tok u hne hf
    simp [authenticate, objectsGet, hne, hf]
  · intro tok hne hf
    simp [authenticate, objectsGet, hne, hf]

/-- Witness for C1 on a concrete store: a present, live token
authenticates its holder. -/
theorem session_token_authentication_contract_witness :
    authenticate 5 (some "tok1") [⟨1, "0123456789", some "tok1", some 10⟩]
      = .authenticated ⟨1, "0123456789", some "tok1", some 10⟩ :=
  (session_token_authentication_contract 5 _).2.1 "tok1" _ (by decide) (by decide)

/-- C2: logging out with a token that resolves to a live session clears
that user's token and expiry, so a subsequent validate-token call with
the same token answers 401 even though the original expiry has not
passed.  The hypothesis `filter ... = [u]` states that the token
resolves: exactly one live row holds it. -/
theorem logout_invalidates_live_token (now : Nat) (t : String) (u : User)
    (users : List User) (hne : t ≠ "")
    (hu : users.filter (matchesToken now t) = [u]) :
    validate_token now (some t) (logout now (some t) none users).1 = 401 := by
  have hft : firstTruthy (some t) none = some t := by
    simp [firstTruthy, hne]
  have hget : objectsGet (matchesToken now t) users = .ok u := by
    simp [objectsGet, hu]
  have hlog : (logout now (some t) none users).1
      = users.map fun v => if v.id = u.id then clearSession v else v := by
    simp [logout, hft, hget]
  rw [hlog]
  have hnil : (users.map fun v => if v.id = u.id then clearSession v else v).filter
      (matchesTokenQ now (some t)) = [] := by
    rw [List.filter_eq_nil_iff]
    intro w hw
    rcases List.mem_map.mp hw with ⟨v, hv, rfl⟩
    by_cases hid : v.id = u.id
    · simp [hid, clearSession, matchesTokenQ]
    · simp only [hid, if_false]
      intro hpred
      have hvmem : v ∈ users.filter (matchesToken now t) :=
        List.mem_filter.mpr ⟨hv, hpred⟩
      rw [hu] at hvmem
      have : v = u := by simpa using hvmem
      exact hid (by rw [this])
  simp [validate_token, objectsGet, hnil]

/-- Witness for C2: a live token on a concrete store fails validation
after logout. -/
theorem logout_invalidates_live_token_witness :
    validate_token 5 (some "tok2")
      (logout 5 (some "tok2") none [⟨1, "0123456789", some "tok2", some 10⟩]).1 = 401 :=
  logout_invalidates_live_token 5 "tok2" ⟨1, "0123456789", some "tok2", some 10⟩
    [⟨1, "0123456789", some "tok2", some 10⟩] (by decide) (by decide)

/-- C3: logout answers 200 whatever token is supplied - absent, unknown,
already invalidated, or expired - given the store invariant that no two
rows hold the same non-null token (so the only escaping exception,
`MultipleObjectsReturned`, cannot occur). -/
theorem logout_always_returns_success (now : Nat) (body header : Option String)
    (users : List User) (huniq : uniqueTokens users) :
    (logout now body header users).2 = 200 := by
  cases hft : firstTruthy body header with
  | none => simp [logout, hft]
  | some t =>
    have hle := filter_matchesToken_length_le_one now t users huniq
    cases hf : users.filter (matchesToken now t) with
    | nil => simp [logout, hft, objectsGet, hf]
    | cons a l =>
      cases l with
      | nil => simp [logout, hft, objectsGet, hf]
      | cons b l2 =>
        rw [hf] at hle
        simp at hle

/-- Witness for C3: logout of an unknown token on a concrete store with
distinct tokens answers 200. -/
theorem logout_always_returns_success_witness :
    (logout 5 (some "unknown") none
      [⟨1, "0123456789", some "tok3", some 10⟩,
       ⟨2, "0123456780", none, none⟩]).2 = 200 :=
  logout_always_returns_success 5 (some "unknown") none
    [⟨1, "0123456789", some "tok3", some 10⟩, ⟨2, "0123456780", none, none⟩]
    (by unfold uniqueTokens sessionTokens; decide)

/-- A row of the `UserProfile` table (one-to-one with `User`),
restricted to the fields read by the views under verification.
Modelled from the spec for the defaults: `models.py` is not under
`src/`; per the data model a fresh profile starts with two-factor
authentication disabled. -/
structure UserProfile where
  user : Nat
  two_factor_enabled : Bool
  deriving Repr, DecidableEq

/-- A row of the `UserSettings` table (one-to-one with `User`),
restricted to the auto-reply and dark-mode fields the views touch. -/
structure UserSettings where
  user : Nat
  auto_reply_enabled : Bool
  auto_reply_start_date : Option Nat
  auto_reply_end_date : Option Nat
  auto_reply_message : String
  dark_mode : Bool
  deriving Repr, DecidableEq

/-- Modelled from the spec: `models.py` is not under `src/`; a settings
row is created with auto-reply off and empty fields (§3: auto-reply
fields, font preference, dark-mode flag; §4.6: get-or-create a default
row). -/
def defaultUserSettings (uid : Nat) : UserSettings :=
  ⟨uid, false, none, none, "", false⟩

/-- A row of the `Label` table: owner, name, colour. -/
structure Label where
  user : Nat
  name : String
  color : String
  deriving Repr, DecidableEq

/-- The relational store as seen by the registration flow. -/
structure Store where
  users : List User
  profiles : List UserProfile
  settings : List UserSettings
  labels : List Label
  deriving Repr, DecidableEq

/-- `validate_phone_number`: passes iff the value is truthy and its
length lies in [10, 15]; a falsy or out-of-range value raises
`ValidationError("Invalid phone number")`. -/
def validate_phone_number : Option String → Bool
  | none => false
  | some p => !(p = "" || p.length < 10 || 15 < p.length : Bool)

/-- `RegisterView.post`: serializer validation (the serializer itself
lives in `serializers.py`, outside `src/`, so its verdict is an input),
then phone validation, then the duplicate-phone check, each answering
400 with the store untouched; on success the user row plus its profile,
default settings, and the three default labels are created and 201 is
returned. -/
def register (serializerValid : Bool) (phone : Option String) (newId : Nat)
    (st : Store) : Store × Nat :=
  if !serializerValid then (st, 400)
  else if !(validate_phone_number phone) then (st, 400)
  else
    let p := phone.getD ""
    if st.users.any (fun u => u.phone_number = p) then (st, 400)
    else
      ({ users := st.users ++ [⟨newId, p, none, none⟩],
         profiles := st.profiles ++ [⟨newId, false⟩],
         settings := st.settings ++ [defaultUserSettings newId],
         labels := st.labels ++
           [⟨newId, "Important", "#FF0000"⟩,
            ⟨newId, "Personal", "#00FF00"⟩,
            ⟨newId, "Work", "#0000FF"⟩] }, 201)

/-- C4: a registration whose phone number is shorter than 10 or longer
than 15 characters fails with a 400 validation error and leaves the
whole store - in particular the user table - unchanged. -/
theorem register_rejects_bad_phone_length (sv : Bool) (p : String) (newId : Nat)
    (st : Store) (hlen : p.length < 10 ∨ 15 < p.length) :
    register sv (some p) newId st = (st, 400) := by
  have hval : validate_phone_number (some p) = false := by
    unfold validate_phone_number
    rcases hlen with h | h
    · simp [h]
    · simp [h]
  cases sv <;> simp [register, hval]

/-- Witness for C4: a 9-character phone number is rejected with the
store unchanged. -/
theorem register_rejects_bad_phone_length_witness :
    register true (some "012345678") 1 ⟨[], [], [], []⟩ = (⟨[], [], [], []⟩, 400) :=
  register_rejects_bad_phone_length true "012345678" 1 ⟨[], [], [], []⟩
    (Or.inl (by decide))

/-- C5: after a successful registration (status 201) of a user whose id
is fresh in the profile, settings, and label tables, exactly one
profile row, exactly one settings row, and exactly three label rows
named Important, Personal, and Work exist for the new user. -/
theorem register_creates_default_records (sv : Bool) (phone : Option String)
    (newId : Nat) (st : Store)
    (hp : st.profiles.filter (fun pr => pr.user == newId) = [])
    (hs : st.settings.filter (fun s => s.user == newId) = [])
    (hl : st.labels.filter (fun l => l.user == newId) = [])
    (h201 : (register sv phone newId st).2 = 201) :
    ((register sv phone newId st).1.profiles.filter (fun pr => pr.user == newId)).length = 1
    ∧ ((register sv phone newId st).1.settings.filter (fun s => s.user == newId)).length = 1
    ∧ ((register sv phone newId st).1.labels.filter
        (fun l => l.user == newId)).map (fun l => l.name)
        = ["Important", "Personal", "Work"] := by
  cases sv with
  | false => simp [register] at h201
  | true =>
    cases hv : validate_phone_number phone with
    | false => simp [register, hv] at h201
    | true =>
      cases hd : st.users.any (fun u => u.phone_number = phone.getD "") with
      | true => simp [register, hv, hd] at h201
      | false =>
        simp [register, hv, hd, List.filter_append, hp, hs, hl, defaultUserSettings]

/-- Witness for C5: registering into an empty store creates the three
default labels for the new user. -/
theorem register_creates_default_records_witness :
    ((register true (some "0123456789") 1 ⟨[], [], [], []⟩).1.labels.filter
        (fun l => l.user == 1)).map (fun l => l.name)
      = ["Important", "Personal", "Work"] :=
  (register_creates_default_records true (some "0123456789") 1 ⟨[], [], [], []⟩
    rfl rfl rfl rfl).2.2

/-- `UserSettings.objects.get(user=uid)` resolved against the list of
settings rows: the first row owned by `uid`. -/
def findSettings (uid : Nat) (rows : List UserSettings) : Option UserSettings :=
  rows.find? (fun s => s.user == uid)

/-- `UserSettings.objects.get_or_create(user=request.user)`: reuse the
existing row, or insert (and persist) a default one. -/
def getOrCreateSettings (uid : Nat) (rows : List UserSettings) :
    UserSettings × List UserSettings :=
  match findSettings uid rows with
  | some s => (s, rows)
  | none => (defaultUserSettings uid, rows ++ [defaultUserSettings uid])

/-- `user_settings.save()`: write the updated row back over the row(s)
keyed by the owning user. -/
def saveSettings (uid : Nat) (s : UserSettings) (rows : List UserSettings) :
    List UserSettings :=
  rows.map (fun r => if r.user == uid then s else r)

/-- The fields a partial `AutoReplySettingsSerializer` payload may
carry; `none` means the field was not supplied.  (The serializer lives
in `serializers.py`, outside `src/`; its field set is modelled from the
spec's auto-reply data model.) -/
structure AutoReplyUpdate where
  auto_reply_enabled : Option Bool
  auto_reply_start_date : Option Nat
  auto_reply_end_date : Option Nat
  auto_reply_message : Option String
  deriving Repr, DecidableEq

/-- Partial update of a plain field: a supplied value overwrites. -/
def updField {α : Type} (new : Option α) (old : α) : α :=
  match new with
  | some v => v
  | none => old

/-- Partial update of a nullable field: a supplied value overwrites. -/
def updOptField {α : Type} (new old : Option α) : Option α :=
  match new with
  | some v => some v
  | none => old

/-- `serializer.save()` for a partial auto-reply update. -/
def applyAutoReplyUpdate (d : AutoReplyUpdate) (s : UserSettings) : UserSettings :=
  { s with
    auto_reply_enabled := updField d.auto_reply_enabled s.auto_reply_enabled,
    auto_reply_start_date := updOptField d.auto_reply_start_date s.auto_reply_start_date,
    auto_reply_end_date := updOptField d.auto_reply_end_date s.auto_reply_end_date,
    auto_reply_message := updField d.auto_reply_message s.auto_reply_message }

/-- `AutoReplySettingsView.put`: get-or-create the row, then reject with
400 - persisting nothing further - exactly when both dates are supplied
and `start_date > end_date`; otherwise apply the partial update and
answer 200. -/
def autoReplyPut (uid : Nat) (d : AutoReplyUpdate) (rows : List UserSettings) :
    List UserSettings × Nat :=
  let gc := getOrCreateSettings uid rows
  match d.auto_reply_start_date, d.auto_reply_end_date with
  | some sd, some ed =>
    if ed < sd then (gc.2, 400)
    else (saveSettings uid (applyAutoReplyUpdate d gc.1) gc.2, 200)
  | some _, none => (saveSettings uid (applyAutoReplyUpdate d gc.1) gc.2, 200)
  | none, some _ => (saveSettings uid (applyAutoReplyUpdate d gc.1) gc.2, 200)
  | none, none => (saveSettings uid (applyAutoReplyUpdate d gc.1) gc.2, 200)

/-- A stored auto-reply row (disabled, no window) for the boundary
analysis of the PUT date check. -/
def arRowEq : UserSettings := ⟨1, false, none, none, "", false⟩

/-- A PUT payload supplying an equal start and end date. -/
def arUpdEq : AutoReplyUpdate := ⟨none, some 5, some 5, none⟩

/-- Counterexample to C6 as stated: with start_date = end_date = 5 the
start does not precede the end, yet the view accepts the update (200)
and persists the new window, because the source only rejects
`start_date > end_date`. -/
theorem auto_reply_put_equal_dates_accepted :
    arUpdEq.auto_reply_start_date = some 5
    ∧ arUpdEq.auto_reply_end_date = some 5
    ∧ ¬ (5 : Nat) < 5
    ∧ autoReplyPut 1 arUpdEq [arRowEq]
        = ([⟨1, false, some 5, some 5, "", false⟩], 200) :=
  ⟨rfl, rfl, by decide, rfl⟩

/-- C6 amended: when both dates are supplied and start_date is strictly
after end_date, the PUT fails with 400 and, provided a settings row
already exists for the user, the store is fully unchanged (absent a
row, only the lazy get-or-create default row is persisted). -/
theorem auto_reply_put_rejects_strictly_inverted_range (uid : Nat)
    (d : AutoReplyUpdate) (rows : List UserSettings) (sd ed : Nat)
    (r : UserSettings)
    (hsd : d.auto_reply_start_date = some sd)
    (hed : d.auto_reply_end_date = some ed)
    (hgt : ed < sd) (hex : findSettings uid rows = some r) :
    autoReplyPut uid d rows = (rows, 400) := by
  simp [autoReplyPut, getOrCreateSettings, hex, hsd, hed, hgt]

/-- Witness for amended C6: an inverted range (9 > 3) is rejected with
the store unchanged. -/
theorem auto_reply_put_rejects_strictly_inverted_range_witness :
    autoReplyPut 1 ⟨none, some 9, some 3, none⟩ [arRowEq] = ([arRowEq], 400) :=
  auto_reply_put_rejects_strictly_inverted_range 1 ⟨none, some 9, some 3, none⟩
    [arRowEq] 9 3 arRowEq rfl rfl (by decide) rfl

/-- `timezone.timedelta(days=30)` in seconds. -/
def thirtyDaysSeconds : Nat := 30 * 86400

/-- `AutoReplySettingsView.patch`: get-or-create the row, flip the
enabled flag, and when the new state is enabled default each absent
window bound (start to now, end to now + 30 days); persist and answer
200. -/
def autoReplyPatch (now uid : Nat) (rows : List UserSettings) :
    List UserSettings × Nat :=
  let gc := getOrCreateSettings uid rows
  let s1 : UserSettings := { gc.1 with auto_reply_enabled := !gc.1.auto_reply_enabled }
  let s2 :=
    if s1.auto_reply_enabled then
      let sA := if s1.auto_reply_start_date.isNone then
          { s1 with auto_reply_start_date := some now } else s1
      if sA.auto_reply_end_date.isNone then
        { sA with auto_reply_end_date := some (now + thirtyDaysSeconds) } else sA
    else s1
  (saveSettings uid s2 gc.2, 200)

/-- After saving a row keyed to `uid`, the lookup for `uid` yields the
saved row, provided some row for `uid` already existed. -/
theorem findSettings_saveSettings (uid : Nat) (s : UserSettings)
    (hsu : s.user = uid) :
    ∀ rows r, findSettings uid rows = some r →
      findSettings uid (saveSettings uid s rows) = some s := by
  intro rows
  induction rows with
  | nil => intro r h; simp [findSettings] at h
  | cons x xs ih =>
    intro r h
    by_cases hx : x.user = uid
    · have hxb : (x.user == uid) = true := by simp [hx]
      have hsb : (s.user == uid) = true := by simp [hsu]
      unfold findSettings saveSettings
      simp only [List.map_cons, hxb, if_true]
      exact List.find?_cons_of_pos _ hsb
    · have hxb : (x.user == uid) = false := by simp [hx]
      have htail : findSettings uid xs = some r := by
        unfold findSettings at h
        rwa [List.find?_cons_of_neg _ (by simp [hx])] at h
      unfold findSettings saveSettings
      simp only [List.map_cons, hxb, if_false]
      rw [List.find?_cons_of_neg _ (by simp [hx])]
      exact ih r htail

/-- C7: a PATCH on a settings row that is disabled with no stored
window enables auto-reply and sets the window to [now, now + 30 days],
so the resulting end date equals the start date plus 30 days. -/
theorem auto_reply_patch_enables_with_default_window (now uid : Nat)
    (rows : List UserSettings) (r : UserSettings)
    (hex : findSettings uid rows = some r)
    (hdis : r.auto_reply_enabled = false)
    (hsd : r.auto_reply_start_date = none)
    (hed : r.auto_reply_end_date = none) :
    (autoReplyPatch now uid rows).2 = 200
    ∧ findSettings uid (autoReplyPatch now uid rows).1
        = some { r with auto_reply_enabled := true,
                        auto_reply_start_date := some now,
                        auto_reply_end_date := some (now + thirtyDaysSeconds) } := by
  have hru : r.user = uid := by
    have hp := List.find?_some hex
    simpa using hp
  have hpatch : autoReplyPatch now uid rows
      = (saveSettings uid
          { r with auto_reply_enabled := true,
                   auto_reply_start_date := some now,
                   auto_reply_end_date := some (now + thirtyDaysSeconds) }
          rows, 200) := by
    unfold autoReplyPatch
    rw [show getOrCreateSettings uid rows = (r, rows) from by
      simp [getOrCreateSettings, hex]]
    simp [hdis, hsd, hed]
  refine ⟨by rw [hpatch], ?_⟩
  rw [hpatch]
  exact findSettings_saveSettings uid _ (by simpa using hru) rows r hex

/-- Witness for C7: PATCH at time 100 on a disabled row with no window
enables auto-reply with the window [100, 100 + 30 days]. -/
theorem auto_reply_patch_enables_with_default_window_witness :
    (autoReplyPatch 100 1 [arRowEq]).2 = 200
    ∧ findSettings 1 (autoReplyPatch 100 1 [arRowEq]).1
        = some { arRowEq with auto_reply_enabled := true,
                              auto_reply_start_date := some 100,
                              auto_reply_end_date := some (100 + thirtyDaysSeconds) } :=
  auto_reply_patch_enables_with_default_window 100 1 [arRowEq] arRowEq rfl rfl rfl rfl

/-- A row of the `Email` table, restricted to the fields the search
view filters on; `labels` carries the label names joined through
`labels__name`, and `attachments` the number of attachment rows joined
through `attachments__isnull`. -/
structure Email where
  id : Nat
  sender : Nat
  recipients : List Nat
  subject : String
  body : String
  sent_at : Nat
  is_read : Bool
  is_starred : Bool
  is_trashed : Bool
  labels : List String
  attachments : Nat
  deriving Repr, DecidableEq

/-- The raw query parameters of `GET /emails/search`; dates are kept
already parsed, the rest are raw strings so that the source's
truthiness tests on them can be stated. -/
structure SearchParams where
  start_date : Option Nat
  end_date : Option Nat
  status : Option String
  label : Option String
  has_attachments : Option String
  deriving Repr, DecidableEq

/-- The base query of `AdvancedEmailSearchView.get_queryset`: emails
where the caller is a recipient or the sender, excluding trashed
ones. -/
def baseQueryset (uid : Nat) (emails : List Email) : List Email :=
  emails.filter (fun e => (e.recipients.contains uid || e.sender == uid) && !e.is_trashed)

/-- Date-range stage: applied only when both bounds are supplied;
`sent_at__range` is inclusive at both ends. -/
def dateStage (p : SearchParams) (l : List Email) : List Email :=
  match p.start_date, p.end_date with
  | some sd, some ed => l.filter (fun m => decide (sd ≤ m.sent_at) && decide (m.sent_at ≤ ed))
  | some _, none => l
  | none, some _ => l
  | none, none => l

/-- Status stage: a truthy `status` of `unread` keeps unread mail, of
`starred` keeps starred mail; any other value (or a falsy one) is
ignored. -/
def statusStage (p : SearchParams) (l : List Email) : List Email :=
  match p.status with
  | some st =>
    if st = "unread" then l.filter (fun m => !m.is_read)
    else if st = "starred" then l.filter (fun m => m.is_starred)
    else l
  | none => l

/-- Label stage: a truthy `label` keeps mail carrying a label of that
exact name. -/
def labelStage (p : SearchParams) (l : List Email) : List Email :=
  match p.label with
  | some lb => if lb = "" then l else l.filter (fun m => m.labels.contains lb)
  | none => l

/-- Attachment stage: the raw `has_attachments` string is tested for
truthiness; when truthy the mail is narrowed to rows with at least one
attachment and deduplicated (`.distinct`), since the SQL join repeats a
mail once per attachment. -/
def attachmentsStage (p : SearchParams) (l : List Email) : List Email :=
  match p.has_attachments with
  | some h => if h = "" then l else (l.filter (fun m => 0 < m.attachments)).dedup
  | none => l

/-- `AdvancedEmailSearchView.get_queryset`: the base query narrowed by
the four optional stages in source order. -/
def get_queryset (uid : Nat) (p : SearchParams) (emails : List Email) : List Email :=
  attachmentsStage p (labelStage p (statusStage p (dateStage p (baseQueryset uid emails))))

/-- The full search view: the framework's `SearchFilter` then narrows
the queryset by the free-text query when one is present and non-empty.
Its matching predicate (icontains over subject, body, and the sender's
phone number) is framework machinery outside the repository and is
taken as an arbitrary predicate argument. -/
def searchView (uid : Nat) (p : SearchParams) (q : Option String)
    (textPred : Email → Bool) (emails : List Email) : List Email :=
  let base := get_queryset uid p emails
  match q with
  | none => base
  | some s => if s = "" then base else base.filter textPred

/-- Each optional stage only drops rows. -/
theorem mem_of_mem_dateStage (p : SearchParams) (l : List Email) (m : Email)
    (h : m ∈ dateStage p l) : m ∈ l := by
  unfold dateStage at h
  split at h
  · exact (List.mem_filter.mp h).1
  · exact h
  · exact h
  · exact h

/-- The status stage only drops rows. -/
theorem mem_of_mem_statusStage (p : SearchParams) (l : List Email) (m : Email)
    (h : m ∈ statusStage p l) : m ∈ l := by
  unfold statusStage at h
  split at h
  · split at h
    · exact (List.mem_filter.mp h).1
    · split at h
      · exact (List.mem_filter.mp h).1
      · exact h
  · exact h

/-- The label stage only drops rows. -/
theorem mem_of_mem_labelStage (p : SearchParams) (l : List Email) (m : Email)
    (h : m ∈ labelStage p l) : m ∈ l := by
  unfold labelStage at h
  split at h
  · split at h
    · exact h
    · exact (List.mem_filter.mp h).1
  · exact h

/-- The attachment stage only drops rows. -/
theorem mem_of_mem_attachmentsStage (p : SearchParams) (l : List Email) (m : Email)
    (h : m ∈ attachmentsStage p l) : m ∈ l := by
  unfold attachmentsStage at h
  split at h
  · split at h
    · exact h
    · exact (List.mem_filter.mp (List.mem_dedup.mp h)).1
  · exact h

/-- C8: whatever combination of query parameters is supplied (free-text
query included), every email the search returns is untrashed and has
the caller as a recipient or as the sender. -/
theorem search_results_scoped_and_untrashed (uid : Nat) (p : SearchParams)
    (q : Option String) (textPred : Email → Bool) (emails : List Email) (m : Email)
    (hm : m ∈ searchView uid p q textPred emails) :
    m.is_trashed = false ∧ (m.recipients.contains uid = true ∨ m.sender = uid) := by
  have hbase : m ∈ baseQueryset uid emails := by
    have hqs : m ∈ get_queryset uid p emails := by
      simp only [searchView] at hm
      split at hm
      · exact hm
      · split at hm
        · exact hm
        · exact (List.mem_filter.mp hm).1
    unfold get_queryset at hqs
    exact mem_of_mem_dateStage _ _ _
      (mem_of_mem_statusStage _ _ _
        (mem_of_mem_labelStage _ _ _
          (mem_of_mem_attachmentsStage _ _ _ hqs)))
  have hp := (List.mem_filter.mp hbase).2
  simp only [Bool.and_eq_true, Bool.or_eq_true, Bool.not_eq_true', beq_iff_eq] at hp
  exact ⟨hp.2, hp.1⟩

/-- Witness for C8 on a concrete search: the single matching email is
untrashed and addressed to the caller. -/
theorem search_results_scoped_and_untrashed_witness :
    ((⟨7, 2, [1], "s", "b", 50, false, false, false, [], 0⟩ : Email).is_trashed = false)
    ∧ (((⟨7, 2, [1], "s", "b", 50, false, false, false, [], 0⟩ : Email).recipients.contains 1 = true)
        ∨ (⟨7, 2, [1], "s", "b", 50, false, false, false, [], 0⟩ : Email).sender = 1) :=
  search_results_scoped_and_untrashed 1 ⟨none, none, none, none, none⟩ none
    (fun _ => true) [⟨7, 2, [1], "s", "b", 50, false, false, false, [], 0⟩]
    ⟨7, 2, [1], "s", "b", 50, false, false, false, [], 0⟩ (by decide)

/-- C9: the attachment stage (filter plus deduplication) is applied for
every non-empty `has_attachments` string - "false" and "0" included -
because the raw parameter string's truthiness is tested; an absent or
empty parameter leaves the stage off. -/
theorem attachments_filter_string_truthiness (uid : Nat) (p : SearchParams)
    (emails : List Email) :
    (∀ h, p.has_attachments = some h → h ≠ "" →
      get_queryset uid p emails
        = ((get_queryset uid { p with has_attachments := none } emails).filter
            (fun m => 0 < m.attachments)).dedup)
    ∧ ((p.has_attachments = none ∨ p.has_attachments = some "") →
      get_queryset uid p emails
        = get_queryset uid { p with has_attachments := none } emails) := by
  have hA : ∀ X : List Email, attachmentsStage { p with has_attachments := none } X = X :=
    fun _ => rfl
  have hL : labelStage { p with has_attachments := none }
      (statusStage { p with has_attachments := none }
        (dateStage { p with has_attachments := none } (baseQueryset uid emails)))
      = labelStage p (statusStage p (dateStage p (baseQueryset uid emails))) := rfl
  constructor
  · intro h hha hne
    simp only [get_queryset, hA, hL, attachmentsStage, hha]
    rw [if_neg hne]
  · intro hcase
    rcases hcase with hnone | hempty
    · simp only [get_queryset, hA, hL, attachmentsStage, hnone]
    · simp only [get_queryset, hA, hL, attachmentsStage, hempty]
      simp

/-- Witness for C9: `has_attachments=false` on a concrete mailbox still
applies the attachment filter, dropping an attachment-less email. -/
theorem attachments_filter_string_truthiness_witness :
    get_queryset 1 ⟨none, none, none, none, some "false"⟩
        [⟨7, 2, [1], "s", "b", 50, false, false, false, [], 0⟩]
      = ((get_queryset 1 ⟨none, none, none, none, none⟩
          [⟨7, 2, [1], "s", "b", 50, false, false, false, [], 0⟩]).filter
            (fun m => 0 < m.attachments)).dedup :=
  (attachments_filter_string_truthiness 1 ⟨none, none, none, none, some "false"⟩
    [⟨7, 2, [1], "s", "b", 50, false, false, false, [], 0⟩]).1 "false" rfl (by decide)

/-- `verify_two_factor_code`: Python evaluates `len(code) == 6 and
code.isdigit()`; on a missing (`None`) code, `len(None)` raises a
`TypeError`, modelled as the error case. -/
def verify_two_factor_code (code : Option String) : Except String Bool :=
  match code with
  | none => Except.error "TypeError"
  | some c => Except.ok (decide (c.length = 6) && c.all (fun ch => ch.isDigit))

/-- `TwoFactorSetupView.put`: read `verification_code` from the body
(absent gives `None`); a passing code enables two-factor on the profile
(200), a failing one answers 400, and the `TypeError` raised inside
`verify_two_factor_code` propagates unhandled. -/
def twoFactorPut (code : Option String) (profile : UserProfile) :
    Except String (UserProfile × Nat) :=
  match verify_two_factor_code code with
  | Except.error e => Except.error e
  | Except.ok true => Except.ok ({ profile with two_factor_enabled := true }, 200)
  | Except.ok false => Except.ok (profile, 400)

/-- C10: a PUT without a `verification_code` field reaches `len(None)`
and raises an unhandled `TypeError` rather than the 400 invalid-code
response, and the 400 branch is taken exactly for present codes that
are not 6-digit strings. -/
theorem two_factor_put_missing_code_raises (profile : UserProfile) :
    twoFactorPut none profile = Except.error "TypeError"
    ∧ ∀ c : String, (twoFactorPut (some c) profile = Except.ok (profile, 400)
        ↔ ¬ (c.length = 6 ∧ c.all (fun ch => ch.isDigit) = true)) := by
  constructor
  · rfl
  · intro c
    by_cases hc : (decide (c.length = 6) && c.all (fun ch => ch.isDigit)) = true
    · have hlen : c.length = 6 ∧ c.all (fun ch => ch.isDigit) = true := by
        simpa [Bool.and_eq_true, decide_eq_true_eq] using hc
      have hres : twoFactorPut (some c) profile
          = Except.ok ({ profile with two_factor_enabled := true }, 200) := by
        simp [twoFactorPut, verify_two_factor_code, hc]
      rw [hres]
      constructor
      · intro h
        exfalso
        have h2 := congrArg Prod.snd (Except.ok.inj h)
        simp at h2
      · intro hneg
        exact absurd hlen hneg
    · have hfalse : (decide (c.length = 6) && c.all (fun ch => ch.isDigit)) = false :=
        Bool.eq_false_iff.mpr hc
      have hres : twoFactorPut (some c) profile = Except.ok (profile, 400) := by
        simp [twoFactorPut, verify_two_factor_code, hfalse]
      rw [hres]
      have hnand : ¬ (c.length = 6 ∧ c.all (fun ch => ch.isDigit) = true) := by
        intro hand
        exact hc (by simp [Bool.and_eq_true, decide_eq_true_eq, hand.1, hand.2])
      simp [hnand]

/-- Witness for C10: on a concrete profile, a missing code raises the
`TypeError` instead of producing a response. -/
theorem two_factor_put_missing_code_raises_witness :
    twoFactorPut none ⟨1, false⟩ = Except.error "TypeError" :=
  (two_factor_put_missing_code_raises ⟨1, false⟩).1
